import Mathlib

/-
Verification of the websocket-do session-management core
(packages/websocket-do: BaseSession.ts, ZodSession.ts, zodMsgpack.ts)
against its design document.

The embedding models JavaScript runtime values as an inductive type with
integral numbers (floating point is out of scope), and models the byte-level
JSON / msgpack primitives (JSON.stringify, JSON.parse, msgpackr pack/unpack)
as opaque containers of the logical value: the design document places wire
encoding of scalars outside the subsystem ("JSON/binary codec primitives are
assumed available as library calls, not reimplemented"), and the library
contract is that unpack is a left inverse of pack.
-/

namespace WebsocketDO

/-- JavaScript-like runtime values exchanged through the subsystem.
Numbers are modelled as integers; floating point is out of scope. -/
inductive JsValue where
  | vNull : JsValue
  | vBool : Bool → JsValue
  | vNum : Int → JsValue
  | vStr : String → JsValue
  | vArr : List JsValue → JsValue
  | vObj : List (String × JsValue) → JsValue

/-- JavaScript truthiness of a value, as used by `if (existingData)` in
BaseSession.resume. null, false, 0 and the empty string are falsy; every
array and object is truthy. -/
def JsValue.truthy : JsValue → Bool
  | .vNull => false
  | .vBool b => b
  | .vNum n => decide (n ≠ 0)
  | .vStr s => decide (s ≠ "")
  | .vArr _ => true
  | .vObj _ => true

/-- Truthiness of a nullable JavaScript value: `deserializeAttachment()`
returns `TData | null`, and `null` (the absent case) is falsy. -/
def jsTruthyOpt : Option JsValue → Bool
  | none => false
  | some v => v.truthy

/-- Msgpack byte string produced by the external msgpackr library.
The byte-level representation is outside the subsystem; the container
records the logical value, and the library contract unpack ∘ pack = id
is structural. -/
structure MsgpackBytes where
  val : JsValue

/-- msgpackr pack (external library call). -/
def pack (v : JsValue) : MsgpackBytes := ⟨v⟩

/-- msgpackr unpack (external library call). -/
def unpack (b : MsgpackBytes) : JsValue := b.val

/-- JSON text produced by the host JSON.stringify. As with msgpack, the
character-level representation is outside the subsystem. -/
structure JsonText where
  val : JsValue

/-- JSON.stringify (host primitive). -/
def jsonStringify (v : JsValue) : JsonText := ⟨v⟩

/-- JSON.parse (host primitive). -/
def jsonParse (t : JsonText) : JsValue := t.val

/-- One frame written to a websocket: a text (JSON) frame or a binary
(msgpack) frame. -/
inductive WireFrame where
  | text : JsonText → WireFrame
  | binary : MsgpackBytes → WireFrame

/-- Model of a zod schema: parse validates a value and either returns the
(possibly transformed) value or throws a ZodError, modelled as none. -/
structure Schema where
  parse : JsValue → Option JsValue

/-- Codec produced by zodMsgpack (zodMsgpack.ts): encode validates with the
schema and packs; decode unpacks and validates with the schema. -/
structure Codec where
  encode : JsValue → Option MsgpackBytes
  decode : MsgpackBytes → Option JsValue

/-- zodMsgpack from zodMsgpack.ts: encode runs schema.parse on the value and
packs the validated result (a parse failure propagates as a thrown error,
modelled as none); decode unpacks the bytes and runs schema.parse. -/
def zodMsgpack (schema : Schema) : Codec where
  encode value := (schema.parse value).map pack
  decode bytes := schema.parse (unpack bytes)

/-- One physical connection as seen by this subsystem: whether the channel
is open (readyState === WebSocket.OPEN) and the persisted attachment slot,
which survives a coordinator restart. -/
structure Connection where
  attachment : Option JsValue
  isOpen : Bool

/-- Modelled from the spec: WebsocketWrapper.serializeAttachment (the file
WebsocketWrapper.ts is not among the sources; the design document specifies
the wrapper persists an opaque attachment blob scoped to the connection,
surviving coordinator restarts). Stores the value in the attachment slot. -/
def serializeAttachment (c : Connection) (v : JsValue) : Connection :=
  { c with attachment := some v }

/-- Modelled from the spec: WebsocketWrapper.deserializeAttachment. Returns
the persisted attachment, or null (modelled as none) when absent. -/
def deserializeAttachment (c : Connection) : Option JsValue :=
  c.attachment

/-- BaseSession.resume (BaseSession.ts lines 84 to 91): loads the attachment
and assigns it to the data field when the loaded value is truthy, otherwise
throws the error No data to resume. Returns the new data on success. -/
def resume (c : Connection) : Except String JsValue :=
  match deserializeAttachment c with
  | some v => if v.truthy then Except.ok v else Except.error "No data to resume"
  | none => Except.error "No data to resume"

/-- BaseSession.update (BaseSession.ts lines 93 to 95): re-persists the
session's current data to the connection's attachment. -/
def update (data : JsValue) (c : Connection) : Connection :=
  serializeAttachment c data

/-- BaseSession.startFresh (BaseSession.ts lines 79 to 82): synthesizes data
through the application hook and immediately persists it. -/
def startFresh (created : JsValue) (c : Connection) : JsValue × Connection :=
  (created, serializeAttachment c created)

/-- Configuration of one ZodSession (ZodSessionOptions in ZodSession.ts):
the two message schemas, the per-connection format flag, and the optional
custom protocol-error sender. A custom sender is arbitrary application code;
it is modelled by the list of frames it writes for a given error text. -/
structure ZodSessionConfig where
  clientSchema : Schema
  serverSchema : Schema
  enableBufferMessages : Bool
  customProtocolError : Option (String → List WireFrame)

/-- Behaviour of the room-level application hooks (ZodSessionHandlers in
ZodSession.ts) as far as control flow is concerned: whether
handleValidatedMessage throws on a given validated value, whether a custom
handleValidationError is provided, and whether that custom hook throws. The
default validation-error behaviour (logging) never throws. -/
structure Hooks where
  validatedThrows : JsValue → Bool
  hasErrorHook : Bool
  errorHookThrows : Bool

/-- Frames written and exceptions propagated by the validation-error path
and the default protocol-error sender are the observable outcome of handling
one inbound payload. -/
structure InboundOutcome where
  validatedCalls : Nat
  errorPathCalls : Nat
  schemaDecodes : Nat
  outbox : List WireFrame
  raised : Bool

/-- Exact protocol-violation notice text from ZodSession.ts line 81. -/
def protocolViolationText : String :=
  "String messages are not allowed. Please use buffer messages."

/-- ZodSession.sendProtocolError (ZodSession.ts lines 175 to 188): uses the
custom sender when configured; otherwise, when the channel is open, writes
one JSON text frame holding the object with the single field error set to
the message, with no schema validation; when the channel is not open it
returns without writing. Its own exceptions are caught. -/
def sendProtocolError (cfg : ZodSessionConfig) (isOpen : Bool)
    (errorMessage : String) : List WireFrame :=
  match cfg.customProtocolError with
  | some f => f errorMessage
  | none =>
      if isOpen then
        [WireFrame.text (jsonStringify (JsValue.vObj [("error", JsValue.vStr errorMessage)]))]
      else []

/-- Whether the validation-error path propagates an exception: the custom
handleValidationError hook is invoked without a surrounding try, so it
raises exactly when a custom hook is present and throws; the default
logging branch never throws (ZodSession.ts lines 121 to 136). -/
def errorPathRaises (h : Hooks) : Bool :=
  h.hasErrorHook && h.errorHookThrows

/-- ZodSession internal handleMessage (ZodSession.ts lines 74 to 94),
receiving an inbound text payload already structurally parsed to a value.
When buffer messages are enabled the payload is rejected with a protocol
error and no decoding is attempted; otherwise the client schema parses the
payload, a success runs handleValidatedMessage (whose exception is caught
and routed to the validation-error path), and a parse failure runs the
validation-error path. -/
def handleTextMessage (cfg : ZodSessionConfig) (h : Hooks) (isOpen : Bool)
    (m : JsValue) : InboundOutcome :=
  if cfg.enableBufferMessages then
    { validatedCalls := 0, errorPathCalls := 0, schemaDecodes := 0,
      outbox := sendProtocolError cfg isOpen protocolViolationText,
      raised := false }
  else
    match cfg.clientSchema.parse m with
    | some validated =>
        if h.validatedThrows validated then
          { validatedCalls := 1, errorPathCalls := 1, schemaDecodes := 1,
            outbox := [], raised := errorPathRaises h }
        else
          { validatedCalls := 1, errorPathCalls := 0, schemaDecodes := 1,
            outbox := [], raised := false }
    | none =>
        { validatedCalls := 0, errorPathCalls := 1, schemaDecodes := 1,
          outbox := [], raised := errorPathRaises h }

/-- ZodSession internal handleBufferMessage (ZodSession.ts lines 97 to 118):
when buffer messages are disabled the binary payload is silently dropped
(no hook, no frame); otherwise the client codec decodes the bytes, a
success runs handleValidatedMessage (exception caught and routed to the
validation-error path), and a decode failure runs the validation-error
path. -/
def handleBufferMessage (cfg : ZodSessionConfig) (h : Hooks)
    (buffer : MsgpackBytes) : InboundOutcome :=
  if !cfg.enableBufferMessages then
    { validatedCalls := 0, errorPathCalls := 0, schemaDecodes := 0,
      outbox := [], raised := false }
  else
    match (zodMsgpack cfg.clientSchema).decode buffer with
    | some decodedMessage =>
        if h.validatedThrows decodedMessage then
          { validatedCalls := 1, errorPathCalls := 1, schemaDecodes := 1,
            outbox := [], raised := errorPathRaises h }
        else
          { validatedCalls := 1, errorPathCalls := 0, schemaDecodes := 1,
            outbox := [], raised := false }
    | none =>
        { validatedCalls := 0, errorPathCalls := 1, schemaDecodes := 1,
          outbox := [], raised := errorPathRaises h }

/-- ZodSession.sendJson (ZodSession.ts lines 148 to 159): validates the
message with the server schema, returns silently when the channel is not
open, otherwise writes one JSON text frame of the validated value; a
validation failure is caught and nothing is written. -/
def sendJson (cfg : ZodSessionConfig) (isOpen : Bool) (m : JsValue) :
    List WireFrame :=
  match cfg.serverSchema.parse m with
  | some validatedMessage =>
      if isOpen then [WireFrame.text (jsonStringify validatedMessage)] else []
  | none => []

/-- ZodSession.sendBuffer (ZodSession.ts lines 162 to 172): encodes with the
server codec (validation then pack), returns silently when the channel is
not open, otherwise writes one binary frame; an encode failure is caught
and nothing is written. -/
def sendBuffer (cfg : ZodSessionConfig) (isOpen : Bool) (m : JsValue) :
    List WireFrame :=
  match (zodMsgpack cfg.serverSchema).encode m with
  | some encodedMessage =>
      if isOpen then [WireFrame.binary encodedMessage] else []
  | none => []

/-- ZodSession.send (ZodSession.ts lines 139 to 145): dispatches on the
session's configured format. -/
def send (cfg : ZodSessionConfig) (isOpen : Bool) (m : JsValue) :
    List WireFrame :=
  if cfg.enableBufferMessages then sendBuffer cfg isOpen m
  else sendJson cfg isOpen m

/-- ZodSession.broadcast (ZodSession.ts lines 192 to 199): iterates the
registry values and calls send on every entry, skipping an entry exactly
when excludeSelf is set and the entry is the sender itself (reference
identity). Sessions are identified by their registry identity; the result
is the list of entries whose send is invoked, in iteration order. -/
def broadcastTargets (sessions : List Nat) (self : Nat)
    (excludeSelf : Bool) : List Nat :=
  sessions.filter (fun session => !(excludeSelf && session == self))

/-- ZodWebSocketClient JSON-mode inbound handling (ZodSession.ts lines 299
to 313): JSON.parse of the text then schema validation. -/
def decodeJsonText (schema : Schema) (t : JsonText) : Option JsValue :=
  schema.parse (jsonParse t)

/-- Schema accepting every value unchanged; concrete instance used in
witnesses (model of z.any with passthrough). -/
def anySchema : Schema where
  parse v := some v

/-- Hooks whose handlers never throw and with no custom validation-error
hook; concrete instance used in witnesses. -/
def quietHooks : Hooks where
  validatedThrows := fun _ => false
  hasErrorHook := false
  errorHookThrows := false

/-- Model instance of one branch of the test fixture client schema: an
object with a type field holding the literal message and a text field
holding a string of length between 1 and 1000 parses to itself; everything
else is rejected. -/
def chatMessageSchema : Schema where
  parse v :=
    match v with
    | .vObj [("type", .vStr t), ("text", .vStr x)] =>
        if t == "message" && 1 ≤ x.length && x.length ≤ 1000 then
          some (.vObj [("type", .vStr t), ("text", .vStr x)])
        else none
    | _ => none

/-- Text-format encoding as performed by the sending side in JSON mode
(ZodSession.sendJson and ZodWebSocketClient.send): schema validation
followed by JSON.stringify. -/
def encodeJsonText (schema : Schema) (v : JsValue) : Option JsonText :=
  (schema.parse v).map jsonStringify

/-- Session data value from the resume scenario of the design document. -/
def bobData : JsValue :=
  JsValue.vObj
    [("userId", JsValue.vStr "u1"), ("name", JsValue.vStr "Bob"),
     ("joinedAt", JsValue.vNum 1000)]

/-! Theorems settling the claims. -/

/-- C1 counterexample: for the session data value 0 (a falsy value),
update followed by a simulated restart and resume does not yield the data
back; resume throws No data to resume instead, because BaseSession.resume
tests the deserialized attachment for JavaScript truthiness. -/
theorem update_resume_fails_on_zero_data :
    resume (update (JsValue.vNum 0) ⟨none, true⟩) =
      Except.error "No data to resume" ∧
    resume (update (JsValue.vNum 0) ⟨none, true⟩) ≠
      Except.ok (JsValue.vNum 0) := by
  refine ⟨rfl, fun h => ?_⟩
  simp [resume, update, serializeAttachment, deserializeAttachment,
    JsValue.truthy] at h

/-- C1 (amended): for every truthy session data value d, update followed by
a simulated coordinator restart (only the connection and its attachment
survive) and resume on a new session over the same connection yields a data
field equal to d. -/
theorem update_restart_resume_roundtrip (d : JsValue) (c : Connection)
    (hd : d.truthy = true) :
    resume (update d c) = Except.ok d := by
  simp [resume, update, serializeAttachment, deserializeAttachment, hd]

/-- C1 witness: the scenario data value round-trips through update, a
restart and resume. -/
theorem update_restart_resume_roundtrip_witness :
    bobData.truthy = true ∧
    resume (update bobData ⟨none, true⟩) = Except.ok bobData :=
  ⟨rfl, update_restart_resume_roundtrip bobData ⟨none, true⟩ rfl⟩

/-- C4 counterexample: a connection whose attachment is present and holds
the number 0 has a non-absent attachment, yet resume fails with No data to
resume, refuting failure if and only if the attachment is absent. -/
theorem resume_fails_on_present_falsy_attachment :
    (Connection.mk (some (JsValue.vNum 0)) true).attachment ≠ none ∧
    resume ⟨some (JsValue.vNum 0), true⟩ =
      Except.error "No data to resume" := by
  exact ⟨by simp, rfl⟩

/-- C4 (amended): resume loads the connection's persisted attachment and,
whenever the deserialized attachment is truthy, assigns it to the data
field verbatim with no transformation and no hook; it fails with the error
No data to resume exactly when the deserialized attachment is falsy, which
includes every absent attachment. -/
theorem resume_verbatim_and_failure_condition (c : Connection) :
    (∀ v, deserializeAttachment c = some v → v.truthy = true →
      resume c = Except.ok v) ∧
    (resume c = Except.error "No data to resume" ↔
      jsTruthyOpt (deserializeAttachment c) = false) ∧
    (c.attachment = none →
      resume c = Except.error "No data to resume") := by
  rcases c with ⟨att, isOpen⟩
  rcases att with _ | v
  · refine ⟨fun v hv => by simp [deserializeAttachment] at hv, ?_, fun _ => rfl⟩
    simp [resume, deserializeAttachment, jsTruthyOpt]
  · refine ⟨fun w hw hwt => ?_, ?_, fun h => by simp at h⟩
    · simp [deserializeAttachment] at hw
      subst hw
      simp [resume, deserializeAttachment, hwt]
    · by_cases hv : v.truthy
      · simp [resume, deserializeAttachment, jsTruthyOpt, hv]
      · simp [resume, deserializeAttachment, jsTruthyOpt, hv]

/-- C4 witness: resuming the scenario attachment yields exactly that object
as the session data. -/
theorem resume_verbatim_witness :
    resume ⟨some bobData, true⟩ = Except.ok bobData :=
  (resume_verbatim_and_failure_condition ⟨some bobData, true⟩).1 bobData rfl rfl

/-- C9: resume decides attachment presence by JavaScript truthiness of the
deserialized value: it throws No data to resume exactly when the
deserialized attachment is falsy and succeeds exactly when it is truthy;
in particular the falsy attachments null, 0, the empty string and false
behave exactly as an absent attachment. -/
theorem resume_truthiness_decides (c : Connection) :
    (resume c = Except.error "No data to resume" ↔
      jsTruthyOpt (deserializeAttachment c) = false) ∧
    ((∃ v, resume c = Except.ok v) ↔
      jsTruthyOpt (deserializeAttachment c) = true) ∧
    resume ⟨some JsValue.vNull, true⟩ = resume ⟨none, true⟩ ∧
    resume ⟨some (JsValue.vNum 0), true⟩ = resume ⟨none, true⟩ ∧
    resume ⟨some (JsValue.vStr ""), true⟩ = resume ⟨none, true⟩ ∧
    resume ⟨some (JsValue.vBool false), true⟩ = resume ⟨none, true⟩ := by
  refine ⟨?_, ?_, rfl, rfl, rfl, rfl⟩
  · rcases c with ⟨att, isOpen⟩
    rcases att with _ | v
    · simp [resume, deserializeAttachment, jsTruthyOpt]
    · by_cases hv : v.truthy
      · simp [resume, deserializeAttachment, jsTruthyOpt, hv]
      · simp [resume, deserializeAttachment, jsTruthyOpt, hv]
  · rcases c with ⟨att, isOpen⟩
    rcases att with _ | v
    · simp [resume, deserializeAttachment, jsTruthyOpt]
    · by_cases hv : v.truthy
      · exact ⟨fun _ => by simp [jsTruthyOpt, deserializeAttachment, hv],
          fun _ => ⟨v, by simp [resume, deserializeAttachment, hv]⟩⟩
      · simp [resume, deserializeAttachment, jsTruthyOpt, hv]

/-- C2 counterexample: a binary-only session whose connection is no longer
open handles an inbound text payload without producing any outbound frame,
refuting that exactly one error notice is always produced. -/
theorem binary_only_text_closed_sends_nothing :
    (handleTextMessage ⟨anySchema, anySchema, true, none⟩ quietHooks false
      JsValue.vNull).outbox = [] ∧
    (handleTextMessage ⟨anySchema, anySchema, true, none⟩ quietHooks false
      JsValue.vNull).outbox.length ≠ 1 := by
  exact ⟨rfl, by simp [handleTextMessage, sendProtocolError]⟩

/-- C2 (amended): for every binary-only session handling an inbound text
payload, the validated-message hook is never invoked, schema decoding of
the payload is never attempted, the validation-error hook is never invoked,
and no exception propagates; when the default protocol-error sender is in
use, exactly one schema-free JSON notice holding an object with the single
field error set to a fixed string is written if the connection is open, and
nothing is written if it is not. -/
theorem binary_only_text_payload_rejected (cfg : ZodSessionConfig)
    (h : Hooks) (isOpen : Bool) (m : JsValue)
    (hb : cfg.enableBufferMessages = true) :
    (handleTextMessage cfg h isOpen m).validatedCalls = 0 ∧
    (handleTextMessage cfg h isOpen m).schemaDecodes = 0 ∧
    (handleTextMessage cfg h isOpen m).errorPathCalls = 0 ∧
    (handleTextMessage cfg h isOpen m).raised = false ∧
    (cfg.customProtocolError = none → isOpen = true →
      (handleTextMessage cfg h isOpen m).outbox =
        [WireFrame.text (jsonStringify
          (JsValue.vObj [("error", JsValue.vStr protocolViolationText)]))]) ∧
    (cfg.customProtocolError = none → isOpen = false →
      (handleTextMessage cfg h isOpen m).outbox = []) := by
  refine ⟨?_, ?_, ?_, ?_, fun hc ho => ?_, fun hc ho => ?_⟩ <;>
    simp [handleTextMessage, hb, sendProtocolError, *]

/-- C2 witness: a concrete binary-only session with an open connection and
the default protocol-error sender produces exactly the fixed notice and
invokes nothing else. -/
theorem binary_only_text_payload_rejected_witness :
    (handleTextMessage ⟨anySchema, anySchema, true, none⟩ quietHooks true
      JsValue.vNull).validatedCalls = 0 ∧
    (handleTextMessage ⟨anySchema, anySchema, true, none⟩ quietHooks true
      JsValue.vNull).schemaDecodes = 0 ∧
    (handleTextMessage ⟨anySchema, anySchema, true, none⟩ quietHooks true
      JsValue.vNull).outbox =
      [WireFrame.text (jsonStringify
        (JsValue.vObj [("error", JsValue.vStr protocolViolationText)]))] := by
  obtain ⟨h1, h2, _, _, h5, _⟩ :=
    binary_only_text_payload_rejected ⟨anySchema, anySchema, true, none⟩
      quietHooks true JsValue.vNull rfl
  exact ⟨h1, h2, h5 rfl rfl⟩

/-- C3: for every text-only session, an inbound binary payload is silently
dropped: no hook runs, nothing is decoded, no frame is written, no
exception propagates. -/
theorem text_only_binary_payload_dropped (cfg : ZodSessionConfig)
    (h : Hooks) (buffer : MsgpackBytes)
    (ht : cfg.enableBufferMessages = false) :
    handleBufferMessage cfg h buffer =
      { validatedCalls := 0, errorPathCalls := 0, schemaDecodes := 0,
        outbox := [], raised := false } := by
  simp [handleBufferMessage, ht]

/-- C3 witness: a concrete text-only session drops a concrete binary
payload with the all-zero outcome. -/
theorem text_only_binary_payload_dropped_witness :
    handleBufferMessage ⟨anySchema, anySchema, false, none⟩ quietHooks
      (pack JsValue.vNull) =
      { validatedCalls := 0, errorPathCalls := 0, schemaDecodes := 0,
        outbox := [], raised := false } :=
  text_only_binary_payload_dropped ⟨anySchema, anySchema, false, none⟩
    quietHooks (pack JsValue.vNull) rfl

/-- C10 counterexample: with a custom validation-error hook that itself
throws, an inbound conforming text payload whose validated-message hook
throws makes handling raise to the caller, refuting that handling an
inbound message never raises. -/
theorem inbound_handling_can_raise :
    (handleTextMessage ⟨anySchema, anySchema, false, none⟩
      ⟨fun _ => true, true, true⟩ true JsValue.vNull).raised = true := rfl

/-- C10 (amended): in the session's configured format, an exception thrown
by the validated-message hook after successful decoding and validation is
caught and routed to the validation-error path instead of propagating;
handling an inbound message raises to the caller only when a custom
validation-error hook is provided and itself throws, and in particular
never raises when the validation-error path cannot throw. -/
theorem validated_hook_throw_contained (cfg : ZodSessionConfig) (h : Hooks)
    (isOpen : Bool) (m : JsValue) (buffer : MsgpackBytes) :
    (∀ validated, cfg.enableBufferMessages = false →
      cfg.clientSchema.parse m = some validated →
      h.validatedThrows validated = true →
      (handleTextMessage cfg h isOpen m).validatedCalls = 1 ∧
      (handleTextMessage cfg h isOpen m).errorPathCalls = 1 ∧
      (handleTextMessage cfg h isOpen m).raised = errorPathRaises h) ∧
    (∀ decoded, cfg.enableBufferMessages = true →
      (zodMsgpack cfg.clientSchema).decode buffer = some decoded →
      h.validatedThrows decoded = true →
      (handleBufferMessage cfg h buffer).validatedCalls = 1 ∧
      (handleBufferMessage cfg h buffer).errorPathCalls = 1 ∧
      (handleBufferMessage cfg h buffer).raised = errorPathRaises h) ∧
    (errorPathRaises h = false →
      (handleTextMessage cfg h isOpen m).raised = false ∧
      (handleBufferMessage cfg h buffer).raised = false) := by
  refine ⟨fun validated hb hp hv => ?_, fun decoded hb hp hv => ?_,
    fun he => ⟨?_, ?_⟩⟩
  · simp [handleTextMessage, hb, hp, hv]
  · simp [handleBufferMessage, hb, hp, hv]
  · rcases hb : cfg.enableBufferMessages with _ | _
    · rcases hp : cfg.clientSchema.parse m with _ | validated
      · simp [handleTextMessage, hb, hp, he]
      · rcases hv : h.validatedThrows validated with _ | _ <;>
          simp [handleTextMessage, hb, hp, hv, he]
    · simp [handleTextMessage, hb, sendProtocolError]
  · rcases hb : cfg.enableBufferMessages with _ | _
    · simp [handleBufferMessage, hb]
    · rcases hp : (zodMsgpack cfg.clientSchema).decode buffer with _ | decoded
      · simp [handleBufferMessage, hb, hp, he]
      · rcases hv : h.validatedThrows decoded with _ | _ <;>
          simp [handleBufferMessage, hb, hp, hv, he]

/-- C10 witness: with a conforming payload, a throwing validated-message
hook and no custom validation-error hook, the validation-error path runs
once and nothing propagates. -/
theorem validated_hook_throw_contained_witness :
    (handleTextMessage ⟨anySchema, anySchema, false, none⟩
      ⟨fun _ => true, false, false⟩ true JsValue.vNull).validatedCalls = 1 ∧
    (handleTextMessage ⟨anySchema, anySchema, false, none⟩
      ⟨fun _ => true, false, false⟩ true JsValue.vNull).errorPathCalls = 1 ∧
    (handleTextMessage ⟨anySchema, anySchema, false, none⟩
      ⟨fun _ => true, false, false⟩ true JsValue.vNull).raised = false := by
  obtain ⟨h1, _, h3⟩ :=
    validated_hook_throw_contained ⟨anySchema, anySchema, false, none⟩
      ⟨fun _ => true, false, false⟩ true JsValue.vNull (pack JsValue.vNull)
  obtain ⟨w1, w2, _⟩ := h1 JsValue.vNull rfl rfl rfl
  exact ⟨w1, w2, (h3 rfl).1⟩

/-- C5: for every schema-conforming message value (one the schema parses to
itself), encoding in the session's configured format followed by decoding
the wire payload against the same schema yields the same value, for both
the binary msgpack format (zodMsgpack encode then decode) and the text JSON
format (validate plus JSON.stringify on the sender, JSON.parse plus
validate on the receiver). -/
theorem encode_decode_roundtrip (s : Schema) (v : JsValue)
    (hv : s.parse v = some v) :
    ((zodMsgpack s).encode v).bind (zodMsgpack s).decode = some v ∧
    (encodeJsonText s v).bind (fun t => decodeJsonText s t) = some v := by
  constructor
  · simp [zodMsgpack, pack, unpack, hv]
  · simp [encodeJsonText, decodeJsonText, jsonStringify, jsonParse, hv]

/-- C5 witness: a concrete conforming chat message round-trips through both
formats. -/
theorem encode_decode_roundtrip_witness :
    chatMessageSchema.parse
      (JsValue.vObj [("type", JsValue.vStr "message"),
        ("text", JsValue.vStr "hi")]) =
      some (JsValue.vObj [("type", JsValue.vStr "message"),
        ("text", JsValue.vStr "hi")]) ∧
    ((zodMsgpack chatMessageSchema).encode
      (JsValue.vObj [("type", JsValue.vStr "message"),
        ("text", JsValue.vStr "hi")])).bind
      (zodMsgpack chatMessageSchema).decode =
      some (JsValue.vObj [("type", JsValue.vStr "message"),
        ("text", JsValue.vStr "hi")]) :=
  ⟨rfl,
    (encode_decode_roundtrip chatMessageSchema
      (JsValue.vObj [("type", JsValue.vStr "message"),
        ("text", JsValue.vStr "hi")]) rfl).1⟩

/-- C6: encode re-runs schema validation on its argument: it fails exactly
when the schema rejects the value, and on every value the schema accepts it
succeeds and serializes exactly the validated value. -/
theorem encode_revalidates (s : Schema) (v : JsValue) :
    ((zodMsgpack s).encode v = none ↔ s.parse v = none) ∧
    ((∃ b, (zodMsgpack s).encode v = some b) ↔ ∃ w, s.parse v = some w) ∧
    (∀ w, s.parse v = some w → (zodMsgpack s).encode v = some (pack w)) := by
  rcases hp : s.parse v with _ | w
  · exact ⟨by simp [zodMsgpack, hp], by simp [zodMsgpack, hp],
      fun w hw => by simp [hp] at hw⟩
  · exact ⟨by simp [zodMsgpack, hp], by simp [zodMsgpack, hp],
      fun u hu => by
        obtain rfl : w = u := Option.some.inj hu
        simp [zodMsgpack, hp]⟩

/-- C6 witness: the chat schema rejects a bare number and encode fails on
it; encode succeeds on a conforming message and packs the validated
value. -/
theorem encode_revalidates_witness :
    (zodMsgpack chatMessageSchema).encode (JsValue.vNum 5) = none ∧
    (zodMsgpack chatMessageSchema).encode
      (JsValue.vObj [("type", JsValue.vStr "message"),
        ("text", JsValue.vStr "ok")]) =
      some (pack (JsValue.vObj [("type", JsValue.vStr "message"),
        ("text", JsValue.vStr "ok")])) :=
  ⟨(encode_revalidates chatMessageSchema (JsValue.vNum 5)).1.mpr rfl,
    (encode_revalidates chatMessageSchema
      (JsValue.vObj [("type", JsValue.vStr "message"),
        ("text", JsValue.vStr "ok")])).2.2 _ rfl⟩

/-- C7: broadcast with excludeSelf set, invoked from a session S over any
registry, never calls send on S itself, and calls send on every other entry
of the registry. -/
theorem broadcast_exclude_self (sessions : List Nat) (self : Nat) :
    self ∉ broadcastTargets sessions self true ∧
    ∀ s ∈ sessions, s ≠ self → s ∈ broadcastTargets sessions self true := by
  constructor
  · intro hmem
    rcases List.mem_filter.mp hmem with ⟨_, hcond⟩
    simp at hcond
  · intro s hs hne
    refine List.mem_filter.mpr ⟨hs, ?_⟩
    simp [hne]

/-- C7 witness: in a two-session room the sender receives nothing from its
own excludeSelf broadcast while the one other session is sent to. -/
theorem broadcast_exclude_self_witness :
    1 ∉ broadcastTargets [1, 2] 1 true ∧
    2 ∈ broadcastTargets [1, 2] 1 true :=
  ⟨(broadcast_exclude_self [1, 2] 1).1,
    (broadcast_exclude_self [1, 2] 1).2 2 (by decide) (by decide)⟩

/-- C8: for every message, send on a session whose connection channel is no
longer open writes nothing, in the dispatching send and in both the text
JSON and binary msgpack paths; every exception in these paths is caught, so
nothing is raised (the source wraps both paths in a catch-all). -/
theorem send_noop_when_closed (cfg : ZodSessionConfig) (m : JsValue) :
    send cfg false m = [] ∧
    sendJson cfg false m = [] ∧
    sendBuffer cfg false m = [] := by
  have hj : sendJson cfg false m = [] := by
    rcases hp : cfg.serverSchema.parse m with _ | w <;>
      simp [sendJson, hp]
  have hb : sendBuffer cfg false m = [] := by
    rcases hp : (zodMsgpack cfg.serverSchema).encode m with _ | b <;>
      simp [sendBuffer, hp]
  refine ⟨?_, hj, hb⟩
  rcases he : cfg.enableBufferMessages with _ | _ <;> simp [send, he, hj, hb]

end WebsocketDO
